import Mathlib

/-!
# klar: configuration resolution and scan orchestration

A shallow embedding of `klar.go` (package `main`) and `run/run.go` (package `run`).

* Go strings are modelled by Lean `String`s (sequences of runes).
* Go `int` and `time.Duration` are 64-bit; they are modelled by `Int` with an
  explicit wrap to the signed 64-bit range where the source can overflow.
* A Go `error` is a `GoError`; a nil error is `none`.
* A Go panic is the `Run.panic` outcome.
* The process environment, the Unicode case tables of the Go runtime and the
  Kubernetes / registry / Clair clients are not part of the two source files;
  they are fields of the `Env` and `ScanEnv` structures.
-/

namespace klar

/-! ## Errors and outcomes -/

/-- A Go `error` value: its message and, for an error built with `%w`, the error it wraps. -/
inductive GoError where
  | leaf (msg : String)
  | wrap (msg : String) (inner : GoError)
deriving DecidableEq, Repr

/-- The method `Error()`. -/
def GoError.Error : GoError → String
  | .leaf m => m
  | .wrap m _ => m

/-- The method `Unwrap()` as seen by `errors.Unwrap`. -/
def GoError.Unwrap : GoError → Option GoError
  | .leaf _ => none
  | .wrap _ e => some e

/-- The call `errors.New(msg)`. -/
def errorsNew (msg : String) : GoError := .leaf msg

/-- The call `fmt.Errorf(pre + "%v", err)`: a fresh error carrying only the text. -/
def errorfV (pre : String) (err : GoError) : GoError := .leaf (pre ++ err.Error)

/-- The call `fmt.Errorf(pre + "%w", err)`: a fresh error that wraps `err`. -/
def errorfW (pre : String) (err : GoError) : GoError := .wrap (pre ++ err.Error) err

/-- Outcome of a Go function that either returns or panics. -/
inductive Run (α : Type) where
  | ret (a : α)
  | panic (msg : String)
deriving DecidableEq, Repr

/-! ## The Go string functions used by `klar.go` -/

/-- The tables of package `unicode` for runes above `unicode.MaxASCII`. -/
structure UnicodeTables where
  toLower : Char → Char
  toTitle : Char → Char
  isLetter : Char → Bool
  isDigit : Char → Bool
  isSpace : Char → Bool

/-- The constant `unicode.MaxASCII`. -/
def maxASCII : Nat := 0x7F

/-- The function `unicode.ToLower`: ASCII fast path, tables otherwise. -/
def unicodeToLower (t : UnicodeTables) (r : Char) : Char :=
  if r.toNat ≤ maxASCII then
    if 'A'.toNat ≤ r.toNat ∧ r.toNat ≤ 'Z'.toNat then Char.ofNat (r.toNat + ('a'.toNat - 'A'.toNat)) else r
  else t.toLower r

/-- The function `unicode.ToTitle`: ASCII fast path, tables otherwise. -/
def unicodeToTitle (t : UnicodeTables) (r : Char) : Char :=
  if r.toNat ≤ maxASCII then
    if 'a'.toNat ≤ r.toNat ∧ r.toNat ≤ 'z'.toNat then Char.ofNat (r.toNat - ('a'.toNat - 'A'.toNat)) else r
  else t.toTitle r

/-- The function `strings.isSeparator`. -/
def isSeparator (t : UnicodeTables) (r : Char) : Bool :=
  if r.toNat ≤ 0x7F then
    if '0'.toNat ≤ r.toNat ∧ r.toNat ≤ '9'.toNat then false
    else if 'a'.toNat ≤ r.toNat ∧ r.toNat ≤ 'z'.toNat then false
    else if 'A'.toNat ≤ r.toNat ∧ r.toNat ≤ 'Z'.toNat then false
    else if r = '_' then false
    else true
  else if t.isLetter r || t.isDigit r then false
  else t.isSpace r

/-- The function `strings.ToLower`, which equals `strings.Map(unicode.ToLower, s)`
(the ASCII-only branch of the library computes the same string). -/
def stringsToLower (t : UnicodeTables) (s : String) : String :=
  ⟨s.data.map (unicodeToLower t)⟩

/-- The mapping closure of `strings.Title`, threaded with its captured variable `prev`. -/
def titleRunes (t : UnicodeTables) : Char → List Char → List Char
  | _, [] => []
  | prev, r :: rs =>
    (if isSeparator t prev then unicodeToTitle t r else r) :: titleRunes t r rs

/-- The function `strings.Title`: `prev` starts as a space. -/
def stringsTitle (t : UnicodeTables) (s : String) : String :=
  ⟨titleRunes t ' ' s.data⟩

/-- The verb `%v` applied to a `[]string`. -/
def fmtStringSlice (xs : List String) : String :=
  "[" ++ " ".intercalate xs ++ "]"

/-! ## Package `strconv` on a 64-bit platform -/

/-- The two sentinel errors of package `strconv`. -/
inductive NumErr where
  | ErrSyntax
  | ErrRange
deriving DecidableEq, Repr

/-- The constant `strconv.IntSize`. -/
def intSize : Nat := 64

/-- Conversion to a signed 64-bit integer (two's complement wrap). -/
def wrap64 (x : Int) : Int := (x + 2 ^ 63) % 2 ^ 64 - 2 ^ 63

/-- A byte in `'0'..'9'`. Every byte of a multi-byte rune is above `0x7F`, so
testing runes instead of bytes rejects the same strings. -/
def isDigitByte (c : Char) : Bool := '0'.toNat ≤ c.toNat && c.toNat ≤ '9'.toNat

/-- The digit loop of the fast path of `strconv.Atoi`. The running value stays below
`10 ^ 18`, so no wrap is needed. -/
def atoiFastLoop : List Char → Int → Int × Option NumErr
  | [], n => (n, none)
  | ch :: rest, n =>
    if isDigitByte ch then atoiFastLoop rest (n * 10 + ((ch.toNat : Int) - 48))
    else (0, some .ErrSyntax)

/-- The fast path of `strconv.Atoi` (taken when `0 < len(s) < 19`). -/
def atoiFast (s0 : List Char) : Int × Option NumErr :=
  let signed := s0.head? = some '-' || s0.head? = some '+'
  let s := if signed then s0.tail else s0
  if signed && s.length < 1 then (0, some .ErrSyntax)
  else
    match atoiFastLoop s 0 with
    | (n, none) => (if s0.head? = some '-' then -n else n, none)
    | (_, some e) => (0, some e)

/-- The constant `maxUint64`. -/
def maxUint64 : Nat := 2 ^ 64 - 1

/-- The digit loop of `strconv.ParseUint(s, 10, 64)`. -/
def parseUintLoop : List Char → Nat → Nat × Option NumErr
  | [], n => (n, none)
  | c :: rest, n =>
    if isDigitByte c then
      let d := c.toNat - 48
      if n ≥ maxUint64 / 10 + 1 then (maxUint64, some .ErrRange)
      else
        let n10 := n * 10 % 2 ^ 64
        let n1 := (n10 + d) % 2 ^ 64
        if n1 < n10 ∨ n1 > maxUint64 then (maxUint64, some .ErrRange)
        else parseUintLoop rest n1
    else (0, some .ErrSyntax)

/-- The function `strconv.ParseUint(s, 10, 0)`. -/
def parseUint (s : List Char) : Nat × Option NumErr :=
  if s = [] then (0, some .ErrSyntax) else parseUintLoop s 0

/-- The function `strconv.ParseInt(s, 10, 0)`. -/
def parseInt (s0 : List Char) : Int × Option NumErr :=
  if s0 = [] then (0, some .ErrSyntax)
  else
    let neg := s0.head? = some '-'
    let s := if s0.head? = some '+' || neg then s0.tail else s0
    match parseUint s with
    | (_, some .ErrSyntax) => (0, some .ErrSyntax)
    | (un, err) =>
      let cutoff : Nat := 2 ^ (intSize - 1)
      if ¬ neg ∧ un ≥ cutoff then ((cutoff : Int) - 1, some .ErrRange)
      else if neg ∧ un > cutoff then (-(cutoff : Int), some .ErrRange)
      else
        let n := wrap64 un
        (if neg then wrap64 (-n) else n, err)

/-- The function `strconv.Atoi`. -/
def atoi (s : String) : Int × Option NumErr :=
  let sLen := s.utf8ByteSize
  if 0 < sLen ∧ sLen < 19 then atoiFast s.data
  else parseInt s.data

/-- The function `strconv.ParseBool`. -/
def parseBool (str : String) : Bool × Option NumErr :=
  if str = "1" ∨ str = "t" ∨ str = "T" ∨ str = "true" ∨ str = "TRUE" ∨ str = "True" then
    (true, none)
  else if str = "0" ∨ str = "f" ∨ str = "F" ∨ str = "false" ∨ str = "FALSE" ∨ str = "False" then
    (false, none)
  else (false, some .ErrSyntax)

/-! ## Package `time` -/

/-- The type `time.Duration`: a signed 64-bit count of nanoseconds. -/
abbrev Duration := Int

/-- The constant `time.Minute`. -/
def Minute : Duration := 60 * 1000000000

/-- Multiplication of two `time.Duration` values (64-bit, wrapping). -/
def Duration.mul (a b : Duration) : Duration := wrap64 (a * b)

/-! ## The Kubernetes credential provider, at its interface -/

/-- The type `credentialprovider.AuthConfig`, with the two fields the source reads. -/
structure AuthConfig where
  Username : String
  Password : String
deriving DecidableEq, Repr

/-- The interface `credentialprovider.DockerKeyring`. -/
structure DockerKeyring where
  Lookup : String → List AuthConfig × Bool

/-- The type `corev1.Secret` (`TypeMeta` and `ObjectMeta` are left empty by the source;
the field `Type` is spelled `Type_`). -/
structure Secret where
  Data : List (String × String)
  StringData : Option (List (String × String))
  Type_ : String
deriving DecidableEq, Repr

/-- The constant `corev1.DockerConfigJsonKey`. -/
def DockerConfigJsonKey : String := ".dockerconfigjson"

/-- The constant `corev1.SecretTypeDockerConfigJson`. -/
def SecretTypeDockerConfigJson : String := "kubernetes.io/dockerconfigjson"

/-- The interface `reference.Named`, with its method `Name()`. -/
structure Named where
  Name : String
deriving DecidableEq, Repr

/-! ## The process environment -/

/-- Everything `klar.go` reads from outside: the process environment, the command line,
the Unicode tables, and the credential-provider and image-reference libraries. -/
structure Env where
  getenv : String → String
  osArgs : List String
  unicode : UnicodeTables
  NewDockerKeyring : DockerKeyring
  MakeDockerKeyring : List Secret → DockerKeyring → Except GoError DockerKeyring
  ParseNormalizedNamed : String → Except GoError Named

def optionClairOutput : String := "CLAIR_OUTPUT"
def optionClairAddress : String := "CLAIR_ADDR"
def optionKlarTrace : String := "KLAR_TRACE"
def optionClairThreshold : String := "CLAIR_THRESHOLD"
def optionClairTimeout : String := "CLAIR_TIMEOUT"
def optionDockerTimeout : String := "DOCKER_TIMEOUT"
def optionJSONOutput : String := "JSON_OUTPUT"
def optionFormatOutput : String := "FORMAT_OUTPUT"
def optionDockerUser : String := "DOCKER_USER"
def optionDockerPassword : String := "DOCKER_PASSWORD"
def optionDockerToken : String := "DOCKER_TOKEN"
def optionDockerInsecure : String := "DOCKER_INSECURE"
def optionDockerPlatformOS : String := "DOCKER_PLATFORM_OS"
def optionDockerPlatformArch : String := "DOCKER_PLATFORM_ARCH"
def optionRegistryInsecure : String := "REGISTRY_INSECURE"
def optionWhiteListFile : String := "WHITELIST_FILE"
def optionIgnoreUnfixed : String := "IGNORE_UNFIXED"

/-- The variable `priorities`. -/
def priorities : List String :=
  ["Unknown", "Negligible", "Low", "Medium", "High", "Critical", "Defcon1"]

/-- The loop `for _, sev := range priorities` of `parseOutputPriority`:
the first entry equal to `output`, if any. -/
def findPriority (output : String) : List String → Option String
  | [] => none
  | sev :: rest => if sev = output then some sev else findPriority output rest

/-- The function `parseOutputPriority`. -/
def parseOutputPriority (env : Env) : String × Option GoError :=
  let clairOutput := priorities.headD ""
  let outputEnv := env.getenv optionClairOutput
  if outputEnv ≠ "" then
    let output := stringsTitle env.unicode (stringsToLower env.unicode outputEnv)
    match findPriority output priorities with
    | some sev => (sev, none)
    | none =>
      ("", some (.leaf ("Clair output level " ++ outputEnv ++ " is not supported, only support "
        ++ fmtStringSlice priorities ++ "\n")))
  else (clairOutput, none)

/-- The function `parseIntOption`. -/
def parseIntOption (env : Env) (key : String) : Int :=
  let valStr := env.getenv key
  if valStr ≠ "" then (atoi valStr).1 else 0

/-- The function `parseBoolOption`. -/
def parseBoolOption (env : Env) (key : String) : Bool :=
  match parseBool (env.getenv key) with
  | (envVal, none) => envVal
  | (_, some _) => false

/-- The type `docker.Config`. -/
structure DockerConfig where
  ImageName : String
  User : String
  Password : String
  Token : String
  InsecureTLS : Bool
  InsecureRegistry : Bool
  Timeout : Duration
  PlatformOS : String
  PlatformArch : String
deriving DecidableEq, Repr

/-- The type `config`. -/
structure config where
  ClairAddr : String
  ClairOutput : String
  Threshold : Int
  JSONOutput : Bool
  FormatStyle : String
  ClairTimeout : Duration
  DockerConfig : DockerConfig
  WhiteListFile : String
  IgnoreUnfixed : Bool
  ForwardingTargetURL : String
deriving DecidableEq, Repr

/-- The panic raised by an index expression `xs[i]` out of range. -/
def indexPanic (i len : Nat) : String :=
  "runtime error: index out of range [" ++ toString i ++ "] with length " ++ toString len

/-- The function `getSecretDockerCredentialsFromK8`. -/
def getSecretDockerCredentialsFromK8 (env : Env) : Run (String × String) :=
  let username := env.getenv optionDockerUser
  let password := env.getenv optionDockerPassword
  let secretJsonBody := env.getenv "K8S_IMAGE_PULL_SECRET"
  if secretJsonBody ≠ "" then
    match env.osArgs.get? 1 with
    | none => .panic (indexPanic 1 env.osArgs.length)
    | some imageName =>
      let secrets : List Secret :=
        [{ Data := [(DockerConfigJsonKey, secretJsonBody)],
           StringData := none,
           Type_ := SecretTypeDockerConfigJson }]
      match env.MakeDockerKeyring secrets env.NewDockerKeyring with
      | .error err => .panic err.Error
      | .ok generalKeyRing =>
        match env.ParseNormalizedNamed imageName with
        | .error err => .panic err.Error
        | .ok namedImageRef =>
          match (generalKeyRing.Lookup namedImageRef.Name).1 with
          | [c] => .ret (c.Username, c.Password)
          | _ => .panic (errorsNew "failed to get secret docker credentials").Error
  else .ret (username, password)

/-- The function `newConfig`. The second component is the value of the global
`utils.Trace` after the call, `trace` being its value before. -/
def newConfig (env : Env) (args : List String) (url : String) (trace : Bool) :
    Run (Option config × Option GoError) × Bool :=
  let clairAddr := env.getenv optionClairAddress
  if clairAddr = "" then
    (.ret (none, some (.leaf "Clair address must be provided\n")), trace)
  else
    let trace := if env.getenv optionKlarTrace ≠ "" then true else trace
    match parseOutputPriority env with
    | (_, some err) => (.ret (none, some err), trace)
    | (clairOutput, none) =>
      let clairTimeout := parseIntOption env optionClairTimeout
      let clairTimeout := if clairTimeout = 0 then 1 else clairTimeout
      let dockerTimeout := parseIntOption env optionDockerTimeout
      let dockerTimeout := if dockerTimeout = 0 then 1 else dockerTimeout
      match getSecretDockerCredentialsFromK8 env with
      | .panic msg => (.panic msg, trace)
      | .ret (username, password) =>
        match args.get? 1 with
        | none => (.panic (indexPanic 1 args.length), trace)
        | some imageName =>
          (.ret (some
            { ForwardingTargetURL := url,
              ClairAddr := clairAddr,
              ClairOutput := clairOutput,
              Threshold := parseIntOption env optionClairThreshold,
              JSONOutput := false,
              FormatStyle := "standard",
              IgnoreUnfixed := parseBoolOption env optionIgnoreUnfixed,
              ClairTimeout := Duration.mul clairTimeout Minute,
              WhiteListFile := env.getenv optionWhiteListFile,
              DockerConfig :=
                { ImageName := imageName,
                  User := username,
                  Password := password,
                  Token := env.getenv optionDockerToken,
                  InsecureTLS := parseBoolOption env optionDockerInsecure,
                  InsecureRegistry := parseBoolOption env optionRegistryInsecure,
                  Timeout := Duration.mul dockerTimeout Minute,
                  PlatformOS := env.getenv optionDockerPlatformOS,
                  PlatformArch := env.getenv optionDockerPlatformArch } },
            none), trace)

/-! ## Package `run` (`run/run.go`) -/

/-- The type `docker.FsLayer`. -/
structure FsLayer where
  BlobSum : String
deriving DecidableEq, Repr

/-- The type `docker.FsLayerCommand`. -/
structure FsLayerCommand where
  Command : String
  Layer : String
deriving DecidableEq, Repr

/-- The type `clair.Vulnerability`; the orchestrator only passes these values on. -/
structure Vulnerability where
  Name : String
  Severity : String
deriving DecidableEq, Repr

/-- The state behind a `*docker.Image`, with the fields `ExecuteScan` reads. -/
structure Image where
  Registry : String
  Name : String
  Tag : String
  FsLayers : List FsLayer
  Digest : String
  SchemaVersion : Int
deriving DecidableEq, Repr

/-- The value returned by `clair.NewClair`. -/
structure Clair where
  url : String
  timeout : Duration
deriving DecidableEq, Repr

/-- The fields of `config.Config` that `ExecuteScan` reads. -/
structure Config where
  DockerConfig : DockerConfig
  ClairAddr : String
  ClairTimeout : Duration
  JSONOutput : Bool
deriving DecidableEq, Repr

/-- The registry client and the analysis client, at their interface. A method with a
pointer receiver takes the image state and returns the new one. -/
structure ScanEnv where
  NewImage : DockerConfig → Except GoError Image
  Pull : Image → Image × Option GoError
  FetchFsCommands : Image → DockerConfig → Image × Option GoError
  GetFsCommands : Image → List FsLayerCommand
  NewClair : String → Duration → Clair
  Analyse : Clair → Image → Image × List Vulnerability × Option GoError
  TrimDigest : String → String

/-- The type `ScanResults`. -/
structure ScanResults where
  Vulnerabilities : List Vulnerability
  FsLayerCommands : List FsLayerCommand
  ImageHash : String
  ImageSchemaVersion : Int
deriving DecidableEq, Repr

/-- What `ExecuteScan` does to the outside, in order: calls to the two clients and log lines. -/
inductive Event where
  | NewImage
  | Pull
  | FetchFsCommands
  | GetFsCommands
  | Infof (msg : String)
  | NewClair
  | Analyse
  | Errorf (msg : String)
  | TrimDigest
deriving DecidableEq, Repr

/-- The function `ExecuteScan`: the returned pair and the sequence of events it caused. -/
def ExecuteScan (w : ScanEnv) (conf : Config) :
    (Option ScanResults × Option GoError) × List Event :=
  match w.NewImage conf.DockerConfig with
  | .error err => ((none, some (errorfV "failed to parse name: " err)), [.NewImage])
  | .ok image =>
    match w.Pull image with
    | (_, some err) =>
      ((none, some (errorfW "failed to pull image: " err)), [.NewImage, .Pull])
    | (image, none) =>
      match w.FetchFsCommands image conf.DockerConfig with
      | (_, some err) =>
        ((none, some (errorfV "failed to fetch layer commands: " err)),
          [.NewImage, .Pull, .FetchFsCommands])
      | (image, none) =>
        if image.FsLayers.length = 0 then
          ((none, some (.leaf "failed to pull pull fsLayers")),
            [.NewImage, .Pull, .FetchFsCommands])
        else
          let commands := w.GetFsCommands image
          let log1 := Event.Infof ("Analysing " ++ toString image.FsLayers.length ++ " layers")
          let c := w.NewClair conf.ClairAddr conf.ClairTimeout
          match w.Analyse c image with
          | (image, vulnerabilities, err) =>
            let log2 : List Event :=
              match err with
              | some e => [.Errorf ("Failed to analyze using API: " ++ e.Error)]
              | none => if ¬ conf.JSONOutput then [.Infof "Got results from Clair API"] else []
            ((some
              { Vulnerabilities := vulnerabilities,
                FsLayerCommands := commands,
                ImageHash := w.TrimDigest image.Digest,
                ImageSchemaVersion := image.SchemaVersion },
              err),
              [.NewImage, .Pull, .FetchFsCommands, .GetFsCommands, log1, .NewClair, .Analyse]
                ++ log2 ++ [.TrimDigest])

/-! ## Statements about the stages of `ExecuteScan` -/

/-- Stage 1 fails: image construction returns an error. -/
def Stage1Fails (w : ScanEnv) (conf : Config) : Prop :=
  ∃ err, w.NewImage conf.DockerConfig = .error err

/-- Stage 2 fails: the image is constructed and the pull returns an error. -/
def Stage2Fails (w : ScanEnv) (conf : Config) : Prop :=
  ∃ img1 img2 err, w.NewImage conf.DockerConfig = .ok img1 ∧ w.Pull img1 = (img2, some err)

/-- Stage 3 fails: the image is pulled, and either the layer-command fetch returns an
error or the image has no filesystem layer. -/
def Stage3Fails (w : ScanEnv) (conf : Config) : Prop :=
  ∃ img1 img2 img3, w.NewImage conf.DockerConfig = .ok img1 ∧ w.Pull img1 = (img2, none) ∧
    ((∃ err, w.FetchFsCommands img2 conf.DockerConfig = (img3, some err)) ∨
      (w.FetchFsCommands img2 conf.DockerConfig = (img3, none) ∧ img3.FsLayers = []))

/-- Stages 1 to 3 succeed and leave the image `img3` with at least one layer. -/
def StagesSucceed (w : ScanEnv) (conf : Config) (img3 : Image) : Prop :=
  ∃ img1 img2, w.NewImage conf.DockerConfig = .ok img1 ∧ w.Pull img1 = (img2, none) ∧
    w.FetchFsCommands img2 conf.DockerConfig = (img3, none) ∧ img3.FsLayers ≠ []

/-! ## Sample environments -/

/-- Tables that leave every rune above ASCII alone. -/
def plainTables : UnicodeTables :=
  { toLower := id, toTitle := id, isLetter := fun _ => false, isDigit := fun _ => false,
    isSpace := fun _ => false }

/-- A keyring that answers every lookup with the given entries. -/
def constKeyring (cs : List AuthConfig) : DockerKeyring :=
  { Lookup := fun _ => (cs, ! cs.isEmpty) }

/-- An environment with the given variables, the command line `klar img`, and a
secret document whose keyring answers with `cs`. -/
def sampleEnv (vars : List (String × String)) (cs : List AuthConfig) : Env :=
  { getenv := fun k => (vars.lookup k).getD "",
    osArgs := ["klar", "img"],
    unicode := plainTables,
    NewDockerKeyring := constKeyring [],
    MakeDockerKeyring := fun _ _ => .ok (constKeyring cs),
    ParseNormalizedNamed := fun s => .ok ⟨"docker.io/library/" ++ s⟩ }

/-- A three-layer image. -/
def sampleImage : Image :=
  { Registry := "https://registry-1.docker.io", Name := "library/img", Tag := "latest",
    FsLayers := [⟨"sha256:aa"⟩, ⟨"sha256:bb"⟩, ⟨"sha256:cc"⟩],
    Digest := "sha256:0123", SchemaVersion := 2 }

/-- A scan configuration for `sampleImage`. -/
def sampleConf : Config :=
  { DockerConfig :=
      { ImageName := "img", User := "", Password := "", Token := "", InsecureTLS := false,
        InsecureRegistry := false, Timeout := Minute, PlatformOS := "", PlatformArch := "" },
    ClairAddr := "http://clair:6060", ClairTimeout := Minute, JSONOutput := false }

/-- Clients for which stages 1 to 3 succeed on `sampleImage` and the analysis call
returns `vs` together with `err`. -/
def sampleScanEnv (vs : List Vulnerability) (err : Option GoError) : ScanEnv :=
  { NewImage := fun _ => .ok { sampleImage with FsLayers := [], Digest := "" },
    Pull := fun _ => (sampleImage, none),
    FetchFsCommands := fun img _ => (img, none),
    GetFsCommands := fun img => img.FsLayers.map fun l => ⟨"RUN true", l.BlobSum⟩,
    NewClair := fun a t => ⟨a, t⟩,
    Analyse := fun _ img => (img, vs, err),
    TrimDigest := fun d => ⟨d.data.drop 7⟩ }

/-- Clients whose stage `k` (1, 2 or 3) fails with `err`; with another `k` the image
comes back without layers. -/
def failingScanEnv (k : Nat) (err : GoError) : ScanEnv :=
  { sampleScanEnv [] none with
    NewImage := fun _ =>
      if k = 1 then .error err else .ok { sampleImage with FsLayers := [], Digest := "" },
    Pull := fun img => if k = 2 then (img, some err) else ({ img with Digest := "sha256:0123" }, none),
    FetchFsCommands := fun img _ => if k = 3 then (img, some err) else (img, none) }

/-! ## Notions used in the statements -/

/-- The environment `env` with the explicit registry user and password replaced. -/
def withExplicit (env : Env) (u p : String) : Env :=
  { env with
    getenv := fun k =>
      if k = optionDockerUser then u else if k = optionDockerPassword then p else env.getenv k }

/-- The one-element secret list `getSecretDockerCredentialsFromK8` builds from the document. -/
def pullSecrets (secretJsonBody : String) : List Secret :=
  [{ Data := [(DockerConfigJsonKey, secretJsonBody)],
     StringData := none,
     Type_ := SecretTypeDockerConfigJson }]

/-- A well-formed pull-secret document with one entry, for the registry
`registry.example.com`, holding the username `bob` and the password `hunter2`. -/
def sampleDocument : String :=
  "\x7b\"auths\":\x7b\"registry.example.com\":" ++
    "\x7b\"username\":\"bob\",\"password\":\"hunter2\"\x7d\x7d\x7d"

/-- The keyring of `sampleDocument`: its entry answers for every image of the registry
`registry.example.com`, and nothing answers for other images. -/
def sampleDocumentKeyring : DockerKeyring :=
  { Lookup := fun image =>
      if image.data.take 21 = "registry.example.com/".data then ([⟨"bob", "hunter2"⟩], true)
      else ([], false) }

/-- An environment with the given variables and the command line
`klar registry.example.com/team/img`. The credential provider accepts the secret built
from `sampleDocument` and rejects every other document; the reference parser accepts the
image named on the command line, which is already in normalized form. -/
def registryEnv (vars : List (String × String)) : Env :=
  { getenv := fun k => (vars.lookup k).getD "",
    osArgs := ["klar", "registry.example.com/team/img"],
    unicode := plainTables,
    NewDockerKeyring := constKeyring [],
    MakeDockerKeyring := fun secrets _ =>
      if secrets = pullSecrets sampleDocument then .ok sampleDocumentKeyring
      else .error (.leaf "unexpected end of JSON input"),
    ParseNormalizedNamed := fun s =>
      if s = "registry.example.com/team/img" then .ok ⟨s⟩
      else .error (.leaf "invalid reference format") }

/-- The outcome of `getSecretDockerCredentialsFromK8` is the one the pull-secret document
dictates: a missing image argument, a document that does not parse and a reference that
does not normalize each end in a panic; otherwise the lookup for the normalized image
name decides, a single entry giving its username and password and any other number of
entries a panic. -/
def DocumentDecides (env : Env) : Prop :=
  (env.osArgs.get? 1 = none →
      getSecretDockerCredentialsFromK8 env = .panic (indexPanic 1 env.osArgs.length)) ∧
    (∀ imageName err, env.osArgs.get? 1 = some imageName →
      env.MakeDockerKeyring (pullSecrets (env.getenv "K8S_IMAGE_PULL_SECRET"))
        env.NewDockerKeyring = .error err →
      getSecretDockerCredentialsFromK8 env = .panic err.Error) ∧
    (∀ imageName kr err, env.osArgs.get? 1 = some imageName →
      env.MakeDockerKeyring (pullSecrets (env.getenv "K8S_IMAGE_PULL_SECRET"))
        env.NewDockerKeyring = .ok kr →
      env.ParseNormalizedNamed imageName = .error err →
      getSecretDockerCredentialsFromK8 env = .panic err.Error) ∧
    (∀ imageName kr ref, env.osArgs.get? 1 = some imageName →
      env.MakeDockerKeyring (pullSecrets (env.getenv "K8S_IMAGE_PULL_SECRET"))
        env.NewDockerKeyring = .ok kr →
      env.ParseNormalizedNamed imageName = .ok ref →
      (∀ c, (kr.Lookup ref.Name).1 = [c] →
        getSecretDockerCredentialsFromK8 env = .ret (c.Username, c.Password)) ∧
      ((kr.Lookup ref.Name).1.length ≠ 1 →
        getSecretDockerCredentialsFromK8 env
          = .panic "failed to get secret docker credentials"))

/-- The function `strconv.Itoa`: the decimal text of `n`. -/
def Itoa (n : Int) : String := toString n

/-- An optional sign followed by one or more decimal digits. -/
def isIntegerNumeral (s : String) : Bool :=
  let ds := if s.data.head? = some '-' || s.data.head? = some '+' then s.data.tail else s.data
  !ds.isEmpty && ds.all isDigitByte

/-- What `newConfig` makes of the integer read for a timeout setting. -/
def resolveTimeout (n : Int) : Duration :=
  Duration.mul (if n = 0 then 1 else n) Minute

/-- How a timeout setting with value `v` resolves to the duration `d`. -/
def TimeoutRule (v : String) (d : Duration) : Prop :=
  (v = "" → d = Minute) ∧
    (v = "0" → d = Minute) ∧
    ((atoi v).2 = some .ErrSyntax → d = Minute) ∧
    (v.utf8ByteSize < 19 → isIntegerNumeral v = false → d = Minute) ∧
    (∀ n : Int, 1 ≤ n → n ≤ 153722867 → v = Itoa n → d = n * Minute ∧ Minute ≤ d) ∧
    (∀ n : Int, -153722867 ≤ n → n ≤ -1 → v = Itoa n → d = n * Minute ∧ d < 0)

/-- Lower case of an ASCII letter; every other rune is left alone. -/
def asciiLower (c : Char) : Char :=
  if 'A'.toNat ≤ c.toNat ∧ c.toNat ≤ 'Z'.toNat then Char.ofNat (c.toNat + 32) else c

/-- Upper case of an ASCII letter; every other rune is left alone. -/
def asciiTitle (c : Char) : Char :=
  if 'a'.toNat ≤ c.toNat ∧ c.toNat ≤ 'z'.toNat then Char.ofNat (c.toNat - 32) else c

/-- Case-insensitive comparison: the two strings are equal once the letters `A`..`Z` are
replaced by `a`..`z`. -/
def eqFoldASCII (a b : String) : Prop := a.data.map asciiLower = b.data.map asciiLower

instance (a b : String) : Decidable (eqFoldASCII a b) := by
  unfold eqFoldASCII; infer_instance

/-- Every rune of the string is at most `unicode.MaxASCII`. -/
def isASCII (s : String) : Prop := ∀ c ∈ s.data, c.toNat ≤ maxASCII

/-- The call fails with an error whose message contains the setting as given and the
rendered list of allowed values. -/
def RejectsNamingValue (env : Env) : Prop :=
  ∃ e : GoError, parseOutputPriority env = ("", some e) ∧
    (env.getenv optionClairOutput).data <:+: e.Error.data ∧
    (fmtStringSlice priorities).data <:+: e.Error.data

/-! ## `ExecuteScan`: shared lemmas -/

theorem ExecuteScan_of_stage1_error (w : ScanEnv) (conf : Config) (err : GoError)
    (h1 : w.NewImage conf.DockerConfig = .error err) :
    ExecuteScan w conf = ((none, some (errorfV "failed to parse name: " err)), [.NewImage]) := by
  simp [ExecuteScan, h1]

theorem ExecuteScan_of_stage2_error (w : ScanEnv) (conf : Config) (img1 img2 : Image)
    (err : GoError) (h1 : w.NewImage conf.DockerConfig = .ok img1)
    (h2 : w.Pull img1 = (img2, some err)) :
    ExecuteScan w conf =
      ((none, some (errorfW "failed to pull image: " err)), [.NewImage, .Pull]) := by
  simp [ExecuteScan, h1, h2]

theorem ExecuteScan_of_stage3_error (w : ScanEnv) (conf : Config) (img1 img2 img3 : Image)
    (err : GoError) (h1 : w.NewImage conf.DockerConfig = .ok img1)
    (h2 : w.Pull img1 = (img2, none))
    (h3 : w.FetchFsCommands img2 conf.DockerConfig = (img3, some err)) :
    ExecuteScan w conf =
      ((none, some (errorfV "failed to fetch layer commands: " err)),
        [.NewImage, .Pull, .FetchFsCommands]) := by
  simp [ExecuteScan, h1, h2, h3]

theorem ExecuteScan_of_no_layers (w : ScanEnv) (conf : Config) (img1 img2 img3 : Image)
    (h1 : w.NewImage conf.DockerConfig = .ok img1)
    (h2 : w.Pull img1 = (img2, none))
    (h3 : w.FetchFsCommands img2 conf.DockerConfig = (img3, none))
    (h4 : img3.FsLayers = []) :
    ExecuteScan w conf =
      ((none, some (.leaf "failed to pull pull fsLayers")),
        [.NewImage, .Pull, .FetchFsCommands]) := by
  simp [ExecuteScan, h1, h2, h3, h4]

theorem ExecuteScan_of_stages_ok (w : ScanEnv) (conf : Config) (img3 : Image)
    (h : StagesSucceed w conf img3) :
    (ExecuteScan w conf).1 =
      (some
        { Vulnerabilities := (w.Analyse (w.NewClair conf.ClairAddr conf.ClairTimeout) img3).2.1,
          FsLayerCommands := w.GetFsCommands img3,
          ImageHash := w.TrimDigest
            (w.Analyse (w.NewClair conf.ClairAddr conf.ClairTimeout) img3).1.Digest,
          ImageSchemaVersion :=
            (w.Analyse (w.NewClair conf.ClairAddr conf.ClairTimeout) img3).1.SchemaVersion },
        (w.Analyse (w.NewClair conf.ClairAddr conf.ClairTimeout) img3).2.2) := by
  obtain ⟨img1, img2, h1, h2, h3, h4⟩ := h
  have h4' : img3.FsLayers.length ≠ 0 := by
    intro h0
    exact h4 (List.length_eq_zero.mp h0)
  simp [ExecuteScan, h1, h2, h3, h4']

/-- Either one of the stages 1 to 3 fails or they all succeed. -/
theorem stages_fail_or_succeed (w : ScanEnv) (conf : Config) :
    (Stage1Fails w conf ∨ Stage2Fails w conf ∨ Stage3Fails w conf) ∨
      ∃ img3, StagesSucceed w conf img3 := by
  cases h1 : w.NewImage conf.DockerConfig with
  | error err => exact Or.inl (Or.inl ⟨err, h1⟩)
  | ok img1 =>
    rcases h2 : w.Pull img1 with ⟨img2, _ | err⟩
    · rcases h3 : w.FetchFsCommands img2 conf.DockerConfig with ⟨img3, _ | err⟩
      · by_cases h4 : img3.FsLayers = []
        · exact Or.inl (Or.inr (Or.inr ⟨img1, img2, img3, h1, h2, Or.inr ⟨h3, h4⟩⟩))
        · exact Or.inr ⟨img3, img1, img2, h1, h2, h3, h4⟩
      · exact Or.inl (Or.inr (Or.inr ⟨img1, img2, img3, h1, h2, Or.inl ⟨err, h3⟩⟩))
    · exact Or.inl (Or.inr (Or.inl ⟨img1, img2, err, h1, h2⟩))

/-- A failure of one of the stages 1 to 3 gives a nil result and a non-nil error. -/
theorem ExecuteScan_of_fatal (w : ScanEnv) (conf : Config)
    (h : Stage1Fails w conf ∨ Stage2Fails w conf ∨ Stage3Fails w conf) :
    (ExecuteScan w conf).1.1 = none ∧ (ExecuteScan w conf).1.2 ≠ none := by
  rcases h with ⟨err, h1⟩ | ⟨img1, img2, err, h1, h2⟩ | ⟨img1, img2, img3, h1, h2, h3⟩
  · rw [ExecuteScan_of_stage1_error w conf err h1]; simp
  · rw [ExecuteScan_of_stage2_error w conf img1 img2 err h1 h2]; simp
  · rcases h3 with ⟨err, h3⟩ | ⟨h3, h4⟩
    · rw [ExecuteScan_of_stage3_error w conf img1 img2 img3 err h1 h2 h3]; simp
    · rw [ExecuteScan_of_no_layers w conf img1 img2 img3 h1 h2 h3 h4]; simp

theorem sampleScanEnv_stages (vs : List Vulnerability) (err : Option GoError) :
    StagesSucceed (sampleScanEnv vs err) sampleConf sampleImage :=
  ⟨{ sampleImage with FsLayers := [], Digest := "" }, sampleImage, rfl, rfl, rfl, by decide⟩

/-! ## `ExecuteScan`: the partial-failure policy -/

/-- C1: when stages 1 to 3 succeed (the image has at least one layer) and the analysis
call returns an error, `ExecuteScan` returns a non-nil `ScanResults` whose
`FsLayerCommands` are the image's layer commands, whose `ImageHash` is the trimmed
digest and whose `ImageSchemaVersion` is the schema version of the image, together with
the very error the analysis call returned. -/
theorem ExecuteScan_analysis_error_keeps_result (w : ScanEnv) (conf : Config)
    (img3 img4 : Image) (vs : List Vulnerability) (e : GoError)
    (hs : StagesSucceed w conf img3)
    (ha : w.Analyse (w.NewClair conf.ClairAddr conf.ClairTimeout) img3 = (img4, vs, some e)) :
    ∃ r : ScanResults, (ExecuteScan w conf).1 = (some r, some e) ∧
      r.FsLayerCommands = w.GetFsCommands img3 ∧
      r.ImageHash = w.TrimDigest img4.Digest ∧
      r.ImageSchemaVersion = img4.SchemaVersion := by
  rw [ExecuteScan_of_stages_ok w conf img3 hs, ha]
  exact ⟨_, rfl, rfl, rfl, rfl⟩

theorem ExecuteScan_analysis_error_keeps_result_witness :
    StagesSucceed (sampleScanEnv [] (some (.leaf "context deadline exceeded"))) sampleConf
        sampleImage ∧
      ∃ r : ScanResults,
        (ExecuteScan (sampleScanEnv [] (some (.leaf "context deadline exceeded"))) sampleConf).1
            = (some r, some (.leaf "context deadline exceeded")) ∧
          r.FsLayerCommands =
            (sampleScanEnv [] (some (.leaf "context deadline exceeded"))).GetFsCommands
              sampleImage ∧
          r.ImageHash =
            (sampleScanEnv [] (some (.leaf "context deadline exceeded"))).TrimDigest
              sampleImage.Digest ∧
          r.ImageSchemaVersion = sampleImage.SchemaVersion :=
  ⟨sampleScanEnv_stages _ _,
    ExecuteScan_analysis_error_keeps_result
      (sampleScanEnv [] (some (.leaf "context deadline exceeded"))) sampleConf
      sampleImage sampleImage [] (.leaf "context deadline exceeded")
      (sampleScanEnv_stages _ _) rfl⟩

/-- C2: a failure of stage 1, 2 or 3 (image construction, pull, layer-command fetch or
an image without layers) makes `ExecuteScan` return a nil result and a non-nil error;
when stages 1 to 3 succeed the result is non-nil; so the result is nil exactly when one
of the stages 1 to 3 failed. -/
theorem ExecuteScan_nil_iff_fatal (w : ScanEnv) (conf : Config) :
    ((Stage1Fails w conf ∨ Stage2Fails w conf ∨ Stage3Fails w conf) →
        (ExecuteScan w conf).1.1 = none ∧ (ExecuteScan w conf).1.2 ≠ none) ∧
      ((∃ img3, StagesSucceed w conf img3) → (ExecuteScan w conf).1.1 ≠ none) ∧
      ((ExecuteScan w conf).1.1 = none ↔
        (Stage1Fails w conf ∨ Stage2Fails w conf ∨ Stage3Fails w conf)) := by
  have hok : (∃ img3, StagesSucceed w conf img3) → (ExecuteScan w conf).1.1 ≠ none := by
    rintro ⟨img3, hs⟩
    rw [ExecuteScan_of_stages_ok w conf img3 hs]
    simp
  refine ⟨ExecuteScan_of_fatal w conf, hok, ?_, fun h => (ExecuteScan_of_fatal w conf h).1⟩
  intro hnil
  rcases stages_fail_or_succeed w conf with h | h
  · exact h
  · exact absurd hnil (hok h)

theorem ExecuteScan_nil_iff_fatal_witness :
    ((ExecuteScan (failingScanEnv 2 (.leaf "manifest unknown")) sampleConf).1.1 = none ∧
        (ExecuteScan (failingScanEnv 2 (.leaf "manifest unknown")) sampleConf).1.2 ≠ none) ∧
      (ExecuteScan (sampleScanEnv [] none) sampleConf).1.1 ≠ none :=
  ⟨(ExecuteScan_nil_iff_fatal (failingScanEnv 2 (.leaf "manifest unknown")) sampleConf).1
      (Or.inr (Or.inl ⟨_, _, _, rfl, rfl⟩)),
    (ExecuteScan_nil_iff_fatal (sampleScanEnv [] none) sampleConf).2.1
      ⟨sampleImage, sampleScanEnv_stages _ _⟩⟩

/-- C5, as stated, fails: stages 1 to 3 succeed, the analysis call returns one finding
together with an error, and the returned `Vulnerabilities` list is not empty. -/
theorem ExecuteScan_vulnerabilities_not_cleared :
    StagesSucceed (sampleScanEnv [⟨"CVE-2019-0001", "High"⟩] (some (.leaf "timeout")))
        sampleConf sampleImage ∧
      (sampleScanEnv [⟨"CVE-2019-0001", "High"⟩] (some (.leaf "timeout"))).Analyse
          ((sampleScanEnv [⟨"CVE-2019-0001", "High"⟩] (some (.leaf "timeout"))).NewClair
            sampleConf.ClairAddr sampleConf.ClairTimeout) sampleImage
        = (sampleImage, [⟨"CVE-2019-0001", "High"⟩], some (.leaf "timeout")) ∧
      ∃ r : ScanResults,
        (ExecuteScan (sampleScanEnv [⟨"CVE-2019-0001", "High"⟩] (some (.leaf "timeout")))
            sampleConf).1.1 = some r ∧
          r.Vulnerabilities ≠ [] :=
  ⟨sampleScanEnv_stages _ _, rfl, _, rfl, by decide⟩

/-- C5, amended: when stages 1 to 3 succeed and the analysis call returns an error, the
`Vulnerabilities` list of the returned `ScanResults` is the list the analysis call
returned alongside its error, unchanged; it is empty exactly when that list is empty. -/
theorem ExecuteScan_vulnerabilities_passed_through (w : ScanEnv) (conf : Config)
    (img3 img4 : Image) (vs : List Vulnerability) (e : GoError)
    (hs : StagesSucceed w conf img3)
    (ha : w.Analyse (w.NewClair conf.ClairAddr conf.ClairTimeout) img3 = (img4, vs, some e)) :
    ∃ r : ScanResults, (ExecuteScan w conf).1.1 = some r ∧ r.Vulnerabilities = vs ∧
      (r.Vulnerabilities = [] ↔ vs = []) := by
  rw [ExecuteScan_of_stages_ok w conf img3 hs, ha]
  exact ⟨_, rfl, rfl, Iff.rfl⟩

theorem ExecuteScan_vulnerabilities_passed_through_witness :
    StagesSucceed
        (sampleScanEnv [⟨"CVE-2021-3711", "Critical"⟩, ⟨"CVE-2020-1971", "Medium"⟩]
          (some (.leaf "connection reset by peer"))) sampleConf sampleImage ∧
      ∃ r : ScanResults,
        (ExecuteScan
            (sampleScanEnv [⟨"CVE-2021-3711", "Critical"⟩, ⟨"CVE-2020-1971", "Medium"⟩]
              (some (.leaf "connection reset by peer"))) sampleConf).1.1 = some r ∧
          r.Vulnerabilities = [⟨"CVE-2021-3711", "Critical"⟩, ⟨"CVE-2020-1971", "Medium"⟩] ∧
          (r.Vulnerabilities = [] ↔
            ([⟨"CVE-2021-3711", "Critical"⟩, ⟨"CVE-2020-1971", "Medium"⟩] :
              List Vulnerability) = []) :=
  ⟨sampleScanEnv_stages _ _,
    ExecuteScan_vulnerabilities_passed_through
      (sampleScanEnv [⟨"CVE-2021-3711", "Critical"⟩, ⟨"CVE-2020-1971", "Medium"⟩]
        (some (.leaf "connection reset by peer"))) sampleConf
      sampleImage sampleImage [⟨"CVE-2021-3711", "Critical"⟩, ⟨"CVE-2020-1971", "Medium"⟩]
      (.leaf "connection reset by peer") (sampleScanEnv_stages _ _) rfl⟩

/-- C10, as stated, fails: image construction fails with the error
`invalid reference format`, and the error `ExecuteScan` returns is another value with
another message. -/
theorem ExecuteScan_fatal_error_is_rewritten :
    (failingScanEnv 1 (.leaf "invalid reference format")).NewImage sampleConf.DockerConfig
        = .error (.leaf "invalid reference format") ∧
      (ExecuteScan (failingScanEnv 1 (.leaf "invalid reference format")) sampleConf).1
        = (none, some (.leaf "failed to parse name: invalid reference format")) ∧
      (ExecuteScan (failingScanEnv 1 (.leaf "invalid reference format")) sampleConf).1.2
        ≠ some (.leaf "invalid reference format") ∧
      ("failed to parse name: invalid reference format" : String)
        ≠ (GoError.leaf "invalid reference format").Error := by
  refine ⟨rfl, rfl, ?_, ?_⟩ <;> decide

/-- C10, amended: when image construction, the pull or the layer-command fetch fails,
`ExecuteScan` returns a new error whose message is the message of the stage's error
behind the prefix `failed to parse name: `, `failed to pull image: ` or
`failed to fetch layer commands: `; only the pull error wraps the stage's error; and the
scan stops at that stage: no later stage is invoked. -/
theorem ExecuteScan_fatal_error_prefixed (w : ScanEnv) (conf : Config) :
    (∀ err, w.NewImage conf.DockerConfig = .error err →
        ∃ e, ExecuteScan w conf = ((none, some e), [.NewImage]) ∧
          e.Error = "failed to parse name: " ++ err.Error ∧ e.Unwrap = none) ∧
      (∀ img1 img2 err, w.NewImage conf.DockerConfig = .ok img1 →
        w.Pull img1 = (img2, some err) →
        ∃ e, ExecuteScan w conf = ((none, some e), [.NewImage, .Pull]) ∧
          e.Error = "failed to pull image: " ++ err.Error ∧ e.Unwrap = some err) ∧
      (∀ img1 img2 img3 err, w.NewImage conf.DockerConfig = .ok img1 →
        w.Pull img1 = (img2, none) →
        w.FetchFsCommands img2 conf.DockerConfig = (img3, some err) →
        ∃ e, ExecuteScan w conf = ((none, some e), [.NewImage, .Pull, .FetchFsCommands]) ∧
          e.Error = "failed to fetch layer commands: " ++ err.Error ∧ e.Unwrap = none) := by
  refine ⟨?_, ?_, ?_⟩
  · intro err h1
    exact ⟨_, ExecuteScan_of_stage1_error w conf err h1, rfl, rfl⟩
  · intro img1 img2 err h1 h2
    exact ⟨_, ExecuteScan_of_stage2_error w conf img1 img2 err h1 h2, rfl, rfl⟩
  · intro img1 img2 img3 err h1 h2 h3
    exact ⟨_, ExecuteScan_of_stage3_error w conf img1 img2 img3 err h1 h2 h3, rfl, rfl⟩

theorem ExecuteScan_fatal_error_prefixed_witness :
    ∃ e, ExecuteScan (failingScanEnv 2 (.leaf "manifest unknown")) sampleConf
        = ((none, some e), [.NewImage, .Pull]) ∧
      e.Error = "failed to pull image: " ++ (GoError.leaf "manifest unknown").Error ∧
      e.Unwrap = some (.leaf "manifest unknown") :=
  (ExecuteScan_fatal_error_prefixed (failingScanEnv 2 (.leaf "manifest unknown"))
    sampleConf).2.1 _ _ _ rfl rfl

/-! ## `getSecretDockerCredentialsFromK8` -/

theorem getSecret_of_lookup (env : Env) (imageName : String) (kr : DockerKeyring) (ref : Named)
    (hs : env.getenv "K8S_IMAGE_PULL_SECRET" ≠ "")
    (ha : env.osArgs.get? 1 = some imageName)
    (hk : env.MakeDockerKeyring (pullSecrets (env.getenv "K8S_IMAGE_PULL_SECRET"))
      env.NewDockerKeyring = .ok kr)
    (hr : env.ParseNormalizedNamed imageName = .ok ref) :
    getSecretDockerCredentialsFromK8 env =
      match (kr.Lookup ref.Name).1 with
      | [c] => .ret (c.Username, c.Password)
      | _ => .panic "failed to get secret docker credentials" := by
  unfold pullSecrets at hk
  simp only [getSecretDockerCredentialsFromK8, hs, ne_eq, not_false_eq_true, if_true, ha, hk, hr]
  rfl

theorem getSecret_of_no_document (env : Env) (hs : env.getenv "K8S_IMAGE_PULL_SECRET" = "") :
    getSecretDockerCredentialsFromK8 env =
      .ret (env.getenv optionDockerUser, env.getenv optionDockerPassword) := by
  simp [getSecretDockerCredentialsFromK8, hs]

/-- C3: with a non-empty pull-secret document that parses and an image reference that
normalizes, credential resolution succeeds exactly when the keyring lookup for the
normalized image name returns one entry; then the result is that entry's username and
password; with no entry or with two or more entries it fails (panics) and yields no
credentials. -/
theorem getSecretDockerCredentialsFromK8_unique_match (env : Env) (imageName : String)
    (kr : DockerKeyring) (ref : Named)
    (hs : env.getenv "K8S_IMAGE_PULL_SECRET" ≠ "")
    (ha : env.osArgs.get? 1 = some imageName)
    (hk : env.MakeDockerKeyring (pullSecrets (env.getenv "K8S_IMAGE_PULL_SECRET"))
      env.NewDockerKeyring = .ok kr)
    (hr : env.ParseNormalizedNamed imageName = .ok ref) :
    ((∃ up, getSecretDockerCredentialsFromK8 env = .ret up) ↔
        (kr.Lookup ref.Name).1.length = 1) ∧
      (∀ c, (kr.Lookup ref.Name).1 = [c] →
        getSecretDockerCredentialsFromK8 env = .ret (c.Username, c.Password)) ∧
      ((kr.Lookup ref.Name).1.length ≠ 1 →
        getSecretDockerCredentialsFromK8 env
          = .panic "failed to get secret docker credentials") := by
  rw [getSecret_of_lookup env imageName kr ref hs ha hk hr]
  rcases hl : (kr.Lookup ref.Name).1 with _ | ⟨c, _ | ⟨d, rest⟩⟩ <;> simp

theorem getSecretDockerCredentialsFromK8_unique_match_witness :
    ((∃ up, getSecretDockerCredentialsFromK8
          (sampleEnv [("K8S_IMAGE_PULL_SECRET", "auths: docker.io")] [⟨"bob", "hunter2"⟩])
          = .ret up) ↔
        ((constKeyring [⟨"bob", "hunter2"⟩]).Lookup
          (Named.mk "docker.io/library/img").Name).1.length = 1) ∧
      (∀ c, ((constKeyring [⟨"bob", "hunter2"⟩]).Lookup
          (Named.mk "docker.io/library/img").Name).1 = [c] →
        getSecretDockerCredentialsFromK8
          (sampleEnv [("K8S_IMAGE_PULL_SECRET", "auths: docker.io")] [⟨"bob", "hunter2"⟩])
          = .ret (c.Username, c.Password)) ∧
      (((constKeyring [⟨"bob", "hunter2"⟩]).Lookup
          (Named.mk "docker.io/library/img").Name).1.length ≠ 1 →
        getSecretDockerCredentialsFromK8
          (sampleEnv [("K8S_IMAGE_PULL_SECRET", "auths: docker.io")] [⟨"bob", "hunter2"⟩])
          = .panic "failed to get secret docker credentials") :=
  getSecretDockerCredentialsFromK8_unique_match
    (sampleEnv [("K8S_IMAGE_PULL_SECRET", "auths: docker.io")] [⟨"bob", "hunter2"⟩])
    "img" (constKeyring [⟨"bob", "hunter2"⟩]) ⟨"docker.io/library/img"⟩
    (by decide) rfl rfl rfl

theorem getSecret_of_no_argument (env : Env)
    (hs : env.getenv "K8S_IMAGE_PULL_SECRET" ≠ "") (ha : env.osArgs.get? 1 = none) :
    getSecretDockerCredentialsFromK8 env = .panic (indexPanic 1 env.osArgs.length) := by
  simp only [getSecretDockerCredentialsFromK8, hs, ne_eq, not_false_eq_true, if_true, ha]

theorem getSecret_of_keyring_error (env : Env) (imageName : String) (err : GoError)
    (hs : env.getenv "K8S_IMAGE_PULL_SECRET" ≠ "")
    (ha : env.osArgs.get? 1 = some imageName)
    (hk : env.MakeDockerKeyring (pullSecrets (env.getenv "K8S_IMAGE_PULL_SECRET"))
      env.NewDockerKeyring = .error err) :
    getSecretDockerCredentialsFromK8 env = .panic err.Error := by
  unfold pullSecrets at hk
  simp only [getSecretDockerCredentialsFromK8, hs, ne_eq, not_false_eq_true, if_true, ha, hk]

theorem getSecret_of_reference_error (env : Env) (imageName : String) (kr : DockerKeyring)
    (err : GoError) (hs : env.getenv "K8S_IMAGE_PULL_SECRET" ≠ "")
    (ha : env.osArgs.get? 1 = some imageName)
    (hk : env.MakeDockerKeyring (pullSecrets (env.getenv "K8S_IMAGE_PULL_SECRET"))
      env.NewDockerKeyring = .ok kr)
    (hr : env.ParseNormalizedNamed imageName = .error err) :
    getSecretDockerCredentialsFromK8 env = .panic err.Error := by
  unfold pullSecrets at hk
  simp only [getSecretDockerCredentialsFromK8, hs, ne_eq, not_false_eq_true, if_true, ha, hk, hr]

theorem documentDecides_of_document (env : Env)
    (hs : env.getenv "K8S_IMAGE_PULL_SECRET" ≠ "") : DocumentDecides env := by
  refine ⟨getSecret_of_no_argument env hs, ?_, ?_, ?_⟩
  · intro imageName err ha hk
    exact getSecret_of_keyring_error env imageName err hs ha hk
  · intro imageName kr err ha hk hr
    exact getSecret_of_reference_error env imageName kr err hs ha hk hr
  · intro imageName kr ref ha hk hr
    rw [getSecret_of_lookup env imageName kr ref hs ha hk hr]
    rcases hl : (kr.Lookup ref.Name).1 with _ | ⟨c, _ | ⟨d, rest⟩⟩ <;> simp

/-- C4, as stated, fails: the explicit user and password are `alice` and `s3cret`, a
well-formed pull-secret document with one entry for the image's registry is present,
and the resolved credentials are those of the document's entry, `bob` and `hunter2`. -/
theorem getSecretDockerCredentialsFromK8_document_overrides :
    (registryEnv [("DOCKER_USER", "alice"), ("DOCKER_PASSWORD", "s3cret"),
        ("K8S_IMAGE_PULL_SECRET", sampleDocument)]).getenv optionDockerUser = "alice" ∧
      (registryEnv [("DOCKER_USER", "alice"), ("DOCKER_PASSWORD", "s3cret"),
        ("K8S_IMAGE_PULL_SECRET", sampleDocument)]).getenv optionDockerPassword = "s3cret" ∧
      (registryEnv [("DOCKER_USER", "alice"), ("DOCKER_PASSWORD", "s3cret"),
        ("K8S_IMAGE_PULL_SECRET", sampleDocument)]).getenv "K8S_IMAGE_PULL_SECRET"
        = sampleDocument ∧
      getSecretDockerCredentialsFromK8
        (registryEnv [("DOCKER_USER", "alice"), ("DOCKER_PASSWORD", "s3cret"),
          ("K8S_IMAGE_PULL_SECRET", sampleDocument)])
        = .ret ("bob", "hunter2") ∧
      getSecretDockerCredentialsFromK8
        (registryEnv [("DOCKER_USER", "alice"), ("DOCKER_PASSWORD", "s3cret"),
          ("K8S_IMAGE_PULL_SECRET", sampleDocument)])
        ≠ .ret ("alice", "s3cret") := by
  refine ⟨by decide, by decide, by decide, by decide, by decide⟩

/-- C4, amended: when no pull-secret document is present, credential resolution returns
exactly the explicit username and password; when a document is present, document-based
lookup is used whatever the explicit values are: the outcome is the one the document
dictates (the username and password of the single entry the keyring returns for the
normalized image name, and a failure when the image argument is missing, the document
does not parse, the reference does not normalize or the lookup returns no entry or
several), and replacing the explicit values by any others leaves it unchanged. -/
theorem getSecretDockerCredentialsFromK8_explicit_only_without_document (env : Env) :
    (env.getenv "K8S_IMAGE_PULL_SECRET" = "" →
        getSecretDockerCredentialsFromK8 env =
          .ret (env.getenv optionDockerUser, env.getenv optionDockerPassword)) ∧
      (env.getenv "K8S_IMAGE_PULL_SECRET" ≠ "" →
        DocumentDecides env ∧
          ∀ u p, getSecretDockerCredentialsFromK8 (withExplicit env u p) =
            getSecretDockerCredentialsFromK8 env) := by
  refine ⟨getSecret_of_no_document env, ?_⟩
  intro hs
  refine ⟨documentDecides_of_document env hs, ?_⟩
  intro u p
  have hk : (withExplicit env u p).getenv "K8S_IMAGE_PULL_SECRET"
      = env.getenv "K8S_IMAGE_PULL_SECRET" := by
    simp [withExplicit, optionDockerUser, optionDockerPassword]
  simp only [getSecretDockerCredentialsFromK8, hk, hs, ne_eq, not_false_eq_true, if_true]
  rfl

theorem getSecretDockerCredentialsFromK8_explicit_only_without_document_witness :
    getSecretDockerCredentialsFromK8
        (registryEnv [("DOCKER_USER", "alice"), ("DOCKER_PASSWORD", "s3cret")]) =
        .ret ("alice", "s3cret") ∧
      getSecretDockerCredentialsFromK8
        (registryEnv [("DOCKER_USER", "alice"), ("DOCKER_PASSWORD", "s3cret"),
          ("K8S_IMAGE_PULL_SECRET", sampleDocument)]) =
        .ret ((AuthConfig.mk "bob" "hunter2").Username,
          (AuthConfig.mk "bob" "hunter2").Password) ∧
      ∀ u p, getSecretDockerCredentialsFromK8
          (withExplicit (registryEnv [("DOCKER_USER", "alice"), ("DOCKER_PASSWORD", "s3cret"),
            ("K8S_IMAGE_PULL_SECRET", sampleDocument)]) u p) =
        getSecretDockerCredentialsFromK8
          (registryEnv [("DOCKER_USER", "alice"), ("DOCKER_PASSWORD", "s3cret"),
            ("K8S_IMAGE_PULL_SECRET", sampleDocument)]) :=
  ⟨(getSecretDockerCredentialsFromK8_explicit_only_without_document
      (registryEnv [("DOCKER_USER", "alice"), ("DOCKER_PASSWORD", "s3cret")])).1 (by decide),
    (((getSecretDockerCredentialsFromK8_explicit_only_without_document
      (registryEnv [("DOCKER_USER", "alice"), ("DOCKER_PASSWORD", "s3cret"),
        ("K8S_IMAGE_PULL_SECRET", sampleDocument)])).2 (by decide)).1.2.2.2
      "registry.example.com/team/img" sampleDocumentKeyring
      ⟨"registry.example.com/team/img"⟩ rfl rfl rfl).1
      ⟨"bob", "hunter2"⟩ rfl,
    ((getSecretDockerCredentialsFromK8_explicit_only_without_document
      (registryEnv [("DOCKER_USER", "alice"), ("DOCKER_PASSWORD", "s3cret"),
        ("K8S_IMAGE_PULL_SECRET", sampleDocument)])).2 (by decide)).2⟩

/-! ## `parseOutputPriority` -/

theorem unicodeToLower_of_ascii (t : UnicodeTables) (c : Char) (h : c.toNat ≤ maxASCII) :
    unicodeToLower t c = asciiLower c := by
  simp [unicodeToLower, asciiLower, h]

theorem unicodeToTitle_of_ascii (t : UnicodeTables) (c : Char) (h : c.toNat ≤ maxASCII) :
    unicodeToTitle t c = asciiTitle c := by
  simp [unicodeToTitle, asciiTitle, h]

theorem ascii_of_asciiLower (c : Char) (h : (asciiLower c).toNat ≤ maxASCII) :
    c.toNat ≤ maxASCII := by
  unfold asciiLower at h
  split at h
  · rename_i hc
    have : 'Z'.toNat = 90 := by decide
    simp only [maxASCII]
    omega
  · exact h

theorem ascii_cases (P : Char → Prop) (h : ∀ n, n < 128 → P (Char.ofNat n)) (c : Char)
    (hc : c.toNat ≤ maxASCII) : P c := by
  have := h c.toNat (by simp only [maxASCII] at hc; omega)
  rwa [Char.ofNat_toNat] at this

theorem asciiLower_asciiTitle (c : Char) (hc : c.toNat ≤ maxASCII) :
    asciiLower (asciiTitle c) = asciiLower c :=
  ascii_cases (fun c => asciiLower (asciiTitle c) = asciiLower c) (by decide) c hc

theorem asciiLower_idem (c : Char) (hc : c.toNat ≤ maxASCII) :
    asciiLower (asciiLower c) = asciiLower c :=
  ascii_cases (fun c => asciiLower (asciiLower c) = asciiLower c) (by decide) c hc

theorem asciiLower_ascii (c : Char) (hc : c.toNat ≤ maxASCII) :
    (asciiLower c).toNat ≤ maxASCII :=
  ascii_cases (fun c => (asciiLower c).toNat ≤ maxASCII) (by decide) c hc

theorem map_unicodeToLower_of_ascii (t : UnicodeTables) (l : List Char)
    (h : ∀ c ∈ l, c.toNat ≤ maxASCII) :
    l.map (unicodeToLower t) = l.map asciiLower :=
  List.map_congr_left fun c hc => unicodeToLower_of_ascii t c (h c hc)

theorem map_asciiLower_titleRunes (t : UnicodeTables) (l : List Char) :
    ∀ prev, (∀ c ∈ l, c.toNat ≤ maxASCII) →
      (titleRunes t prev l).map asciiLower = l.map asciiLower := by
  induction l with
  | nil => intro _ _; rfl
  | cons r rs ih =>
    intro prev h
    have hr : r.toNat ≤ maxASCII := h r (List.mem_cons_self _ _)
    have hrs : ∀ c ∈ rs, c.toNat ≤ maxASCII := fun c hc => h c (List.mem_cons_of_mem _ hc)
    simp only [titleRunes, List.map_cons, ih r hrs]
    congr 1
    split
    · rw [unicodeToTitle_of_ascii t r hr, asciiLower_asciiTitle r hr]
    · rfl

theorem priorities_lower_ascii :
    ∀ p ∈ priorities, ∀ c ∈ p.data.map asciiLower, c.toNat ≤ maxASCII := by
  decide

theorem stringsToLower_of_eqFold (t : UnicodeTables) (s p : String) (hp : p ∈ priorities)
    (h : eqFoldASCII s p) : stringsToLower t s = ⟨p.data.map asciiLower⟩ := by
  unfold eqFoldASCII at h
  have hs : ∀ c ∈ s.data, c.toNat ≤ maxASCII := by
    intro c hc
    apply ascii_of_asciiLower
    apply priorities_lower_ascii p hp
    rw [← h]
    exact List.mem_map_of_mem _ hc
  simp only [stringsToLower]
  rw [map_unicodeToLower_of_ascii t _ hs, h]

theorem stringsTitle_lower_priority (t : UnicodeTables) (p : String) (hp : p ∈ priorities) :
    stringsTitle t ⟨p.data.map asciiLower⟩ = p := by
  simp only [priorities, List.mem_cons, List.mem_singleton, List.not_mem_nil, or_false] at hp
  rcases hp with rfl | rfl | rfl | rfl | rfl | rfl | rfl <;> rfl

theorem findPriority_eq_some (o sev : String) (ps : List String)
    (h : findPriority o ps = some sev) : sev = o ∧ sev ∈ ps := by
  induction ps with
  | nil => simp [findPriority] at h
  | cons q qs ih =>
    simp only [findPriority] at h
    split at h
    · rename_i hq
      simp only [Option.some.injEq] at h
      subst h
      exact ⟨hq, List.mem_cons_self _ _⟩
    · exact ⟨(ih h).1, List.mem_cons_of_mem _ (ih h).2⟩

theorem findPriority_of_mem (o : String) (ps : List String) (h : o ∈ ps) :
    findPriority o ps = some o := by
  induction ps with
  | nil => simp at h
  | cons q qs ih =>
    simp only [findPriority]
    split
    · rename_i hq; rw [hq]
    · rename_i hq
      rcases List.mem_cons.mp h with h | h
      · exact absurd h.symm hq
      · exact ih h

theorem findPriority_of_not_mem (o : String) (ps : List String) (h : o ∉ ps) :
    findPriority o ps = none := by
  cases hf : findPriority o ps with
  | none => rfl
  | some sev =>
    have := findPriority_eq_some o sev ps hf
    exact absurd (this.1 ▸ this.2) h

theorem parseOutputPriority_of_unset (env : Env) (h : env.getenv optionClairOutput = "") :
    parseOutputPriority env = ("Unknown", none) := by
  simp [parseOutputPriority, h, priorities]

theorem parseOutputPriority_of_match (env : Env) (p : String)
    (hne : env.getenv optionClairOutput ≠ "")
    (hp : p ∈ priorities)
    (h : stringsTitle env.unicode (stringsToLower env.unicode (env.getenv optionClairOutput)) = p) :
    parseOutputPriority env = (p, none) := by
  simp only [parseOutputPriority, hne, ne_eq, not_false_eq_true, if_true, h,
    findPriority_of_mem p priorities hp]

theorem parseOutputPriority_of_no_match (env : Env)
    (hne : env.getenv optionClairOutput ≠ "")
    (h : stringsTitle env.unicode (stringsToLower env.unicode (env.getenv optionClairOutput))
      ∉ priorities) :
    parseOutputPriority env =
      ("", some (.leaf ("Clair output level " ++ env.getenv optionClairOutput ++
        " is not supported, only support " ++ fmtStringSlice priorities ++ "\n"))) := by
  simp only [parseOutputPriority, hne, ne_eq, not_false_eq_true, if_true,
    findPriority_of_not_mem _ priorities h]

theorem stringsToLower_priority (t : UnicodeTables) (p : String) (hp : p ∈ priorities) :
    stringsToLower t p = ⟨p.data.map asciiLower⟩ := by
  simp only [priorities, List.mem_cons, List.mem_singleton, List.not_mem_nil, or_false] at hp
  rcases hp with rfl | rfl | rfl | rfl | rfl | rfl | rfl <;> rfl

theorem stringsToLower_priority_ne_empty (t : UnicodeTables) (p : String) (hp : p ∈ priorities) :
    stringsToLower t p ≠ stringsToLower t "" := by
  rw [stringsToLower_priority t p hp]
  have h0 : stringsToLower t "" = "" := rfl
  rw [h0]
  revert p
  decide

theorem eqFold_of_normalized (t : UnicodeTables) (s p : String) (hs : isASCII s)
    (h : stringsTitle t (stringsToLower t s) = p) : eqFoldASCII s p := by
  unfold eqFoldASCII
  subst h
  simp only [stringsTitle, stringsToLower]
  rw [map_unicodeToLower_of_ascii t _ hs]
  rw [map_asciiLower_titleRunes t _ ' ' ?_]
  · rw [List.map_map]
    exact List.map_congr_left fun c hc => (asciiLower_idem c (hs c hc)).symm
  · intro c hc
    obtain ⟨d, hd, rfl⟩ := List.mem_map.mp hc
    exact asciiLower_ascii d (hs d hd)

theorem rejects_of_no_match (env : Env)
    (hne : env.getenv optionClairOutput ≠ "")
    (h : stringsTitle env.unicode (stringsToLower env.unicode (env.getenv optionClairOutput))
      ∉ priorities) : RejectsNamingValue env := by
  refine ⟨_, parseOutputPriority_of_no_match env hne h, ?_, ?_⟩
  · exact ⟨"Clair output level ".data,
      (" is not supported, only support " ++ fmtStringSlice priorities ++ "\n").data, by
        simp [GoError.Error, String.data_append]⟩
  · exact ⟨("Clair output level " ++ env.getenv optionClairOutput ++
      " is not supported, only support ").data, "\n".data, by
        simp [GoError.Error, String.data_append]⟩

/-- C6, as stated, fails: the setting `critical ` with a trailing space is rejected. -/
theorem parseOutputPriority_trailing_space_rejected :
    (sampleEnv [("CLAIR_OUTPUT", "critical ")] []).getenv optionClairOutput = "critical " ∧
      parseOutputPriority (sampleEnv [("CLAIR_OUTPUT", "critical ")] []) =
        ("", some (.leaf ("Clair output level critical  is not supported, only support " ++
          "[Unknown Negligible Low Medium High Critical Defcon1]\n"))) ∧
      parseOutputPriority (sampleEnv [("CLAIR_OUTPUT", "critical ")] []) ≠ ("Critical", none) := by
  refine ⟨by decide, by decide, by decide⟩

/-- C6, amended: for the settings `unknown`, `Negligible` and `HIGH`,
`parseOutputPriority` returns `Unknown`, `Negligible` and `High` with no error; the
setting `critical ` with a trailing space is not trimmed and is rejected with an error;
and for every setting that equals one of the seven enumerated values under
case-insensitive comparison (letters `A`..`Z` identified with `a`..`z`, or more
generally equal images under `strings.ToLower`) it returns that enumerated value with no
error. -/
theorem parseOutputPriority_case_insensitive (env : Env) :
    (env.getenv optionClairOutput = "unknown" → parseOutputPriority env = ("Unknown", none)) ∧
      (env.getenv optionClairOutput = "Negligible" →
        parseOutputPriority env = ("Negligible", none)) ∧
      (env.getenv optionClairOutput = "HIGH" → parseOutputPriority env = ("High", none)) ∧
      (env.getenv optionClairOutput = "critical " →
        ∃ e, parseOutputPriority env = ("", some e)) ∧
      (∀ p ∈ priorities, eqFoldASCII (env.getenv optionClairOutput) p →
        parseOutputPriority env = (p, none)) ∧
      (∀ p ∈ priorities,
        stringsToLower env.unicode (env.getenv optionClairOutput) =
          stringsToLower env.unicode p →
        parseOutputPriority env = (p, none)) := by
  have hlow : ∀ p ∈ priorities,
      stringsToLower env.unicode (env.getenv optionClairOutput) =
        stringsToLower env.unicode p →
      parseOutputPriority env = (p, none) := by
    intro p hp h
    have hne : env.getenv optionClairOutput ≠ "" := by
      intro h0
      rw [h0] at h
      exact stringsToLower_priority_ne_empty env.unicode p hp h.symm
    apply parseOutputPriority_of_match env p hne hp
    rw [h, stringsToLower_priority env.unicode p hp]
    exact stringsTitle_lower_priority env.unicode p hp
  have hgen : ∀ p ∈ priorities, eqFoldASCII (env.getenv optionClairOutput) p →
      parseOutputPriority env = (p, none) := by
    intro p hp h
    apply hlow p hp
    rw [stringsToLower_of_eqFold env.unicode _ p hp h, stringsToLower_priority env.unicode p hp]
  refine ⟨?_, ?_, ?_, ?_, hgen, hlow⟩
  · intro h
    exact hgen "Unknown" (by decide) (by rw [h]; decide)
  · intro h
    exact hgen "Negligible" (by decide) (by rw [h]; decide)
  · intro h
    exact hgen "High" (by decide) (by rw [h]; decide)
  · intro h
    have hn : stringsTitle env.unicode (stringsToLower env.unicode "critical ") = "Critical " :=
      rfl
    exact ⟨_, parseOutputPriority_of_no_match env (by rw [h]; decide)
      (by rw [h, hn]; decide)⟩

theorem parseOutputPriority_case_insensitive_witness :
    parseOutputPriority (sampleEnv [("CLAIR_OUTPUT", "HIGH")] []) = ("High", none) ∧
      parseOutputPriority (sampleEnv [("CLAIR_OUTPUT", "deFCon1")] []) = ("Defcon1", none) :=
  ⟨(parseOutputPriority_case_insensitive (sampleEnv [("CLAIR_OUTPUT", "HIGH")] [])).2.2.1
      (by decide),
    (parseOutputPriority_case_insensitive (sampleEnv [("CLAIR_OUTPUT", "deFCon1")] [])).2.2.2.2.1
      "Defcon1" (by decide) (by decide)⟩

/-- C7: an unset severity setting gives `Unknown` with no error; a non-empty setting
whose capitalized lower-case form is none of the seven enumerated values (for an ASCII
setting: one that equals none of them under case-insensitive comparison; for example
`banana`) gives an error whose message contains the setting as given and the full list
of allowed values; and every value returned without error is in the enumeration. -/
theorem parseOutputPriority_default_and_rejection (env : Env) :
    (env.getenv optionClairOutput = "" → parseOutputPriority env = ("Unknown", none)) ∧
      (env.getenv optionClairOutput ≠ "" →
        stringsTitle env.unicode (stringsToLower env.unicode (env.getenv optionClairOutput))
          ∉ priorities →
        RejectsNamingValue env) ∧
      (env.getenv optionClairOutput ≠ "" → isASCII (env.getenv optionClairOutput) →
        (∀ p ∈ priorities, ¬ eqFoldASCII (env.getenv optionClairOutput) p) →
        RejectsNamingValue env) ∧
      (env.getenv optionClairOutput = "banana" → RejectsNamingValue env) ∧
      fmtStringSlice priorities = "[Unknown Negligible Low Medium High Critical Defcon1]" ∧
      (∀ v, parseOutputPriority env = (v, none) → v ∈ priorities) := by
  have hascii : env.getenv optionClairOutput ≠ "" → isASCII (env.getenv optionClairOutput) →
      (∀ p ∈ priorities, ¬ eqFoldASCII (env.getenv optionClairOutput) p) →
      RejectsNamingValue env := by
    intro hne hs hno
    apply rejects_of_no_match env hne
    intro hmem
    exact hno _ hmem (eqFold_of_normalized env.unicode _ _ hs rfl)
  refine ⟨parseOutputPriority_of_unset env, rejects_of_no_match env, hascii, ?_, by decide, ?_⟩
  · intro h
    apply hascii
    · rw [h]; decide
    · rw [h]; unfold isASCII; decide
    · rw [h]; decide
  · intro v hv
    by_cases hne : env.getenv optionClairOutput = ""
    · rw [parseOutputPriority_of_unset env hne] at hv
      simp only [Prod.mk.injEq, and_true] at hv
      subst hv
      decide
    · by_cases hm : stringsTitle env.unicode
          (stringsToLower env.unicode (env.getenv optionClairOutput)) ∈ priorities
      · rw [parseOutputPriority_of_match env _ hne hm rfl] at hv
        simp only [Prod.mk.injEq, and_true] at hv
        exact hv ▸ hm
      · rw [parseOutputPriority_of_no_match env hne hm] at hv
        simp at hv

theorem parseOutputPriority_default_and_rejection_witness :
    parseOutputPriority (sampleEnv [] []) = ("Unknown", none) ∧
      RejectsNamingValue (sampleEnv [("CLAIR_OUTPUT", "banana")] []) :=
  ⟨(parseOutputPriority_default_and_rejection (sampleEnv [] [])).1 (by decide),
    (parseOutputPriority_default_and_rejection
      (sampleEnv [("CLAIR_OUTPUT", "banana")] [])).2.2.2.1 (by decide)⟩

/-! ## `strconv.Atoi`, `parseIntOption` and the timeouts of `newConfig` -/

theorem digitChar_facts : ∀ k, k < 10 →
    isDigitByte (Nat.digitChar k) = true ∧ (Nat.digitChar k).toNat = k + 48 ∧
      Nat.digitChar k ≠ '-' ∧ Nat.digitChar k ≠ '+' := by
  decide

theorem atoiFastLoop_digit (k : Nat) (hk : k < 10) (ds : List Char) (acc : Int) :
    atoiFastLoop (Nat.digitChar k :: ds) acc = atoiFastLoop ds (acc * 10 + k) := by
  obtain ⟨h1, h2, -, -⟩ := digitChar_facts k hk
  simp [atoiFastLoop, h1, h2]

theorem atoiFastLoop_toDigitsCore (fuel : Nat) : ∀ (n : Nat) (ds : List Char), n < fuel →
    atoiFastLoop (Nat.toDigitsCore 10 fuel n ds) 0 = atoiFastLoop ds n := by
  induction fuel with
  | zero => intro n ds h; omega
  | succ fuel ih =>
    intro n ds h
    simp only [Nat.toDigitsCore]
    split
    · rename_i h0
      rw [atoiFastLoop_digit _ (Nat.mod_lt _ (by decide))]
      congr 1
      have : n % 10 = n := by omega
      simp [this]
    · rename_i h0
      rw [ih (n / 10) _ (by omega), atoiFastLoop_digit _ (Nat.mod_lt _ (by decide))]
      congr 1
      have := Nat.div_add_mod n 10
      push_cast
      omega

theorem parseUintLoop_digit (k : Nat) (hk : k < 10) (ds : List Char) (n : Nat)
    (hn : n * 10 + k ≤ maxUint64) :
    parseUintLoop (Nat.digitChar k :: ds) n = parseUintLoop ds (n * 10 + k) := by
  obtain ⟨h1, h2, -, -⟩ := digitChar_facts k hk
  simp only [maxUint64] at hn
  have e1 : n * 10 % 2 ^ 64 = n * 10 := Nat.mod_eq_of_lt (by omega)
  have e2 : (n * 10 + k) % 2 ^ 64 = n * 10 + k := Nat.mod_eq_of_lt (by omega)
  have c1 : ¬ (n ≥ maxUint64 / 10 + 1) := by simp only [maxUint64]; omega
  have c2 : ¬ (n * 10 + k < n * 10 ∨ n * 10 + k > maxUint64) := by
    simp only [maxUint64]; omega
  simp only [parseUintLoop, h1, h2, if_true, Nat.add_sub_cancel, e1, e2, c1, c2, if_false]

theorem parseUintLoop_toDigitsCore (fuel : Nat) : ∀ (n : Nat) (ds : List Char), n < fuel →
    n ≤ maxUint64 →
    parseUintLoop (Nat.toDigitsCore 10 fuel n ds) 0 = parseUintLoop ds n := by
  induction fuel with
  | zero => intro n ds h; omega
  | succ fuel ih =>
    intro n ds h hn
    simp only [Nat.toDigitsCore]
    have hdm := Nat.div_add_mod n 10
    split
    · rename_i h0
      rw [parseUintLoop_digit _ (Nat.mod_lt _ (by decide)) _ _ (by omega)]
      congr 1
      omega
    · rename_i h0
      rw [ih (n / 10) _ (by omega) (by omega),
        parseUintLoop_digit _ (Nat.mod_lt _ (by decide)) _ _ (by omega)]
      congr 1
      omega

theorem toDigitsCore_head (fuel : Nat) : ∀ (n : Nat) (ds : List Char), n < fuel →
    ∃ k, k < 10 ∧ ∃ tl, Nat.toDigitsCore 10 fuel n ds = Nat.digitChar k :: tl := by
  induction fuel with
  | zero => intro n ds h; omega
  | succ fuel ih =>
    intro n ds h
    simp only [Nat.toDigitsCore]
    split
    · exact ⟨n % 10, Nat.mod_lt _ (by decide), ds, rfl⟩
    · exact ih (n / 10) _ (by omega)

theorem toDigits_head (n : Nat) :
    ∃ k, k < 10 ∧ ∃ tl, Nat.toDigits 10 n = Nat.digitChar k :: tl :=
  toDigitsCore_head (n + 1) n [] (Nat.lt_succ_self n)

theorem atoiFast_toDigits (n : Nat) : atoiFast (Nat.toDigits 10 n) = ((n : Int), none) := by
  obtain ⟨k, hk, tl, hd⟩ := toDigits_head n
  obtain ⟨-, -, hm, hp⟩ := digitChar_facts k hk
  have hl : atoiFastLoop (Nat.toDigits 10 n) 0 = ((n : Int), none) := by
    rw [Nat.toDigits, atoiFastLoop_toDigitsCore (n + 1) n [] (Nat.lt_succ_self n)]
    rfl
  have h1 : (Nat.toDigits 10 n).head? ≠ some '-' := by simp [hd, hm]
  have h2 : (Nat.toDigits 10 n).head? ≠ some '+' := by simp [hd, hp]
  simp [atoiFast, h1, h2, hl]

theorem atoiFast_neg_toDigits (n : Nat) :
    atoiFast ('-' :: Nat.toDigits 10 n) = (-(n : Int), none) := by
  obtain ⟨k, hk, tl, hd⟩ := toDigits_head n
  have hl : atoiFastLoop (Nat.toDigits 10 n) 0 = ((n : Int), none) := by
    rw [Nat.toDigits, atoiFastLoop_toDigitsCore (n + 1) n [] (Nat.lt_succ_self n)]
    rfl
  have hlen : ¬ (Nat.toDigits 10 n).length < 1 := by simp [hd]
  simp [atoiFast, hl, hlen]

theorem parseUint_toDigits (n : Nat) (hn : n ≤ maxUint64) :
    parseUint (Nat.toDigits 10 n) = (n, none) := by
  obtain ⟨k, hk, tl, hd⟩ := toDigits_head n
  have hne : Nat.toDigits 10 n ≠ [] := by simp [hd]
  simp only [parseUint, hne, if_false]
  rw [Nat.toDigits, parseUintLoop_toDigitsCore (n + 1) n [] (Nat.lt_succ_self n) hn]
  rfl

theorem wrap64_of_range (x : Int) (h1 : -2 ^ 63 ≤ x) (h2 : x < 2 ^ 63) : wrap64 x = x := by
  unfold wrap64
  omega

theorem parseInt_toDigits (n : Nat) (hn : n < 2 ^ 63) :
    parseInt (Nat.toDigits 10 n) = ((n : Int), none) := by
  obtain ⟨k, hk, tl, hd⟩ := toDigits_head n
  obtain ⟨-, -, hm, hp⟩ := digitChar_facts k hk
  have hne : Nat.toDigits 10 n ≠ [] := by simp [hd]
  have h1 : (Nat.toDigits 10 n).head? ≠ some '-' := by simp [hd, hm]
  have h2 : (Nat.toDigits 10 n).head? ≠ some '+' := by simp [hd, hp]
  have hu := parseUint_toDigits n (by simp only [maxUint64]; omega)
  have hw : wrap64 (n : Int) = n := wrap64_of_range _ (by omega) (by omega)
  have hc : ¬ (n ≥ 2 ^ (intSize - 1)) := by simp only [intSize]; omega
  simp [parseInt, hne, h1, h2, hu, hw, hc]

theorem parseInt_neg_toDigits (n : Nat) (hn : n ≤ 2 ^ 63) :
    parseInt ('-' :: Nat.toDigits 10 n) = (-(n : Int), none) := by
  have hu := parseUint_toDigits n (by simp only [maxUint64]; omega)
  have hc : ¬ (n > 2 ^ (intSize - 1)) := by simp only [intSize]; omega
  have hw : wrap64 (-wrap64 (n : Int)) = -(n : Int) := by
    unfold wrap64
    omega
  simp [parseInt, hu, hw, hc]

/-- Round trip: `strconv.Atoi` reads the decimal text of every 64-bit integer back. -/
theorem atoi_Itoa (n : Int) (h1 : -2 ^ 63 ≤ n) (h2 : n < 2 ^ 63) :
    atoi (Itoa n) = (n, none) := by
  cases n with
  | ofNat m =>
    have hd : (Itoa (Int.ofNat m)).data = Nat.toDigits 10 m := rfl
    simp only [atoi, hd]
    split
    · exact atoiFast_toDigits m
    · exact parseInt_toDigits m (by simp at h2; omega)
  | negSucc m =>
    have hd : (Itoa (Int.negSucc m)).data = '-' :: Nat.toDigits 10 (m + 1) := rfl
    simp only [atoi, hd]
    have hv : Int.negSucc m = -((m + 1 : Nat) : Int) := rfl
    rw [hv]
    split
    · exact atoiFast_neg_toDigits (m + 1)
    · exact parseInt_neg_toDigits (m + 1) (by rw [hv] at h1; push_cast at h1; omega)

theorem Itoa_ne_empty (n : Int) : Itoa n ≠ "" := by
  intro h
  have hd : (Itoa n).data = [] := by rw [h]
  cases n with
  | ofNat m =>
    obtain ⟨k, hk, tl, hd2⟩ := toDigits_head m
    have : (Itoa (Int.ofNat m)).data = Nat.toDigits 10 m := rfl
    rw [this, hd2] at hd
    simp at hd
  | negSucc m =>
    have : (Itoa (Int.negSucc m)).data = '-' :: Nat.toDigits 10 (m + 1) := rfl
    rw [this] at hd
    simp at hd

theorem parseIntOption_Itoa (env : Env) (key : String) (n : Int)
    (h1 : -2 ^ 63 ≤ n) (h2 : n < 2 ^ 63) (h : env.getenv key = Itoa n) :
    parseIntOption env key = n := by
  simp [parseIntOption, h, Itoa_ne_empty, atoi_Itoa n h1 h2]

theorem atoiFastLoop_not_all_digits (l : List Char) : ∀ (acc : Int),
    l.all isDigitByte = false → atoiFastLoop l acc = (0, some .ErrSyntax) := by
  induction l with
  | nil => intro acc h; simp at h
  | cons c cs ih =>
    intro acc h
    simp only [atoiFastLoop]
    split
    · rename_i hc
      apply ih
      simpa [hc] using h
    · rfl

theorem atoiFast_error_value (l : List Char) (e : NumErr) (h : (atoiFast l).2 = some e) :
    (atoiFast l).1 = 0 := by
  unfold atoiFast at h ⊢
  simp only at h ⊢
  generalize (if (decide (l.head? = some '-') || decide (l.head? = some '+')) = true
    then l.tail else l) = s at h ⊢
  rcases hloop : atoiFastLoop s 0 with ⟨v, _ | e2⟩
  · rw [hloop] at h
    split at h
    · rename_i hc; rw [if_pos hc]
    · simp at h
  · split <;> rfl

theorem parseInt_syntax_value (l : List Char) (h : (parseInt l).2 = some .ErrSyntax) :
    (parseInt l).1 = 0 := by
  unfold parseInt at h ⊢
  simp only at h ⊢
  by_cases hne : l = []
  · rw [if_pos hne]
  · rw [if_neg hne] at h ⊢
    generalize (if (decide (l.head? = some '+') || decide (l.head? = some '-')) = true
      then l.tail else l) = s at h ⊢
    rcases hu : parseUint s with ⟨un, _ | _ | _⟩
    · rw [hu] at h
      simp only at h
      split at h
      · simp at h
      · split at h <;> simp at h
    · rfl
    · rw [hu] at h
      simp only at h
      split at h
      · simp at h
      · split at h <;> simp at h

/-- Whenever `strconv.Atoi` reports a syntax error its value is 0. -/
theorem atoi_syntax_value (s : String) (h : (atoi s).2 = some .ErrSyntax) : (atoi s).1 = 0 := by
  unfold atoi at h ⊢
  simp only at h ⊢
  split
  · rename_i hl
    rw [if_pos hl] at h
    exact atoiFast_error_value _ _ h
  · rename_i hl
    rw [if_neg hl] at h
    exact parseInt_syntax_value _ h

theorem data_ne_nil_of_utf8ByteSize_pos (s : String) (h : 0 < s.utf8ByteSize) : s.data ≠ [] := by
  intro hd
  have : s = "" := by
    cases s
    simp only at hd
    subst hd
    rfl
  rw [this] at h
  exact absurd h (by decide)

theorem data_eq_nil_of_utf8ByteSize_zero (s : String) (h : ¬ 0 < s.utf8ByteSize) : s.data = [] := by
  rcases s with ⟨_ | ⟨c, cs⟩⟩
  · rfl
  · exfalso
    apply h
    have : String.utf8ByteSize ⟨c :: cs⟩ = String.utf8ByteSize ⟨cs⟩ + c.utf8Size := by
      simp [String.utf8ByteSize, String.utf8ByteSize.go]
    rw [this]
    have := Char.utf8Size_pos c
    omega

/-- A setting of fewer than 19 bytes that is not an integer numeral makes `strconv.Atoi`
return 0 with a syntax error. -/
theorem atoi_of_not_numeral (s : String) (hlen : s.utf8ByteSize < 19)
    (hn : isIntegerNumeral s = false) : atoi s = (0, some .ErrSyntax) := by
  unfold atoi
  simp only
  by_cases hpos : 0 < s.utf8ByteSize
  · rw [if_pos ⟨hpos, hlen⟩]
    have hne := data_ne_nil_of_utf8ByteSize_pos s hpos
    unfold isIntegerNumeral at hn
    unfold atoiFast
    simp only at hn ⊢
    cases hb : (decide (s.data.head? = some '-') || decide (s.data.head? = some '+'))
    · rw [hb] at hn
      simp only [Bool.false_eq_true, if_false, Bool.false_and] at hn ⊢
      have hall : s.data.all isDigitByte = false := by
        cases hall : s.data.all isDigitByte
        · rfl
        · rw [hall] at hn
          simp [hne] at hn
      rw [atoiFastLoop_not_all_digits _ 0 hall]
    · rw [hb] at hn
      simp only [if_true, Bool.true_and] at hn ⊢
      by_cases ht : s.data.tail = []
      · simp [ht]
      · have hall : s.data.tail.all isDigitByte = false := by
          cases hall : s.data.tail.all isDigitByte
          · rfl
          · rw [hall] at hn
            simp [ht] at hn
        rw [atoiFastLoop_not_all_digits _ 0 hall]
        simp
  · have hd := data_eq_nil_of_utf8ByteSize_zero s hpos
    have hc : ¬ (0 < s.utf8ByteSize ∧ s.utf8ByteSize < 19) := fun h => hpos h.1
    rw [if_neg hc, hd]
    rfl

theorem resolveTimeout_zero : resolveTimeout 0 = Minute := by decide

theorem resolveTimeout_pos (n : Int) (h1 : 1 ≤ n) (h2 : n ≤ 153722867) :
    resolveTimeout n = n * Minute ∧ Minute ≤ resolveTimeout n := by
  have hn : n ≠ 0 := by omega
  simp only [resolveTimeout, hn, if_false, Duration.mul, Minute]
  rw [wrap64_of_range _ (by omega) (by omega)]
  refine ⟨rfl, ?_⟩
  show (60 * 1000000000 : Int) ≤ n * (60 * 1000000000)
  omega

theorem resolveTimeout_neg (n : Int) (h1 : -153722867 ≤ n) (h2 : n ≤ -1) :
    resolveTimeout n = n * Minute ∧ resolveTimeout n < 0 := by
  have hn : n ≠ 0 := by omega
  simp only [resolveTimeout, hn, if_false, Duration.mul, Minute]
  rw [wrap64_of_range _ (by omega) (by omega)]
  refine ⟨rfl, ?_⟩
  show n * (60 * 1000000000) < (0 : Int)
  omega

theorem timeoutRule_resolve (env : Env) (key : String) :
    TimeoutRule (env.getenv key) (resolveTimeout (parseIntOption env key)) := by
  refine ⟨?_, ?_, ?_, ?_, ?_, ?_⟩
  · intro h
    simp [parseIntOption, h, resolveTimeout_zero]
  · intro h
    have : parseIntOption env key = 0 := by
      simp only [parseIntOption, h]
      decide
    rw [this, resolveTimeout_zero]
  · intro h
    have : parseIntOption env key = 0 := by
      simp only [parseIntOption]
      split
      · exact atoi_syntax_value _ h
      · rfl
    rw [this, resolveTimeout_zero]
  · intro hl hn
    have : parseIntOption env key = 0 := by
      simp only [parseIntOption]
      split
      · rw [atoi_of_not_numeral _ hl hn]
      · rfl
    rw [this, resolveTimeout_zero]
  · intro n h1 h2 h
    rw [parseIntOption_Itoa env key n (by omega) (by omega) h]
    exact resolveTimeout_pos n h1 h2
  · intro n h1 h2 h
    rw [parseIntOption_Itoa env key n (by omega) (by omega) h]
    exact resolveTimeout_neg n h1 h2

theorem newConfig_timeouts (env : Env) (args : List String) (url : String) (trace tr : Bool)
    (cfg : config) (h : newConfig env args url trace = (.ret (some cfg, none), tr)) :
    cfg.ClairTimeout = resolveTimeout (parseIntOption env optionClairTimeout) ∧
      cfg.DockerConfig.Timeout = resolveTimeout (parseIntOption env optionDockerTimeout) := by
  unfold newConfig at h
  simp only at h
  split at h
  · simp at h
  · split at h
    · simp at h
    · split at h
      · simp at h
      · split at h
        · simp at h
        · simp only [Prod.mk.injEq, Run.ret.injEq, Option.some.injEq, and_true] at h
          obtain ⟨h, -⟩ := h
          subst h
          exact ⟨rfl, rfl⟩

/-- C8, evaluated where the code departs from it: the settings `9223372036854775808`
and `-9223372036854775809` are digits that do not fit a 64-bit integer, and
`99999999999999999999x` is not numeric; `strconv.Atoi` reports an error for each, and
`parseIntOption` returns the largest or smallest 64-bit integer instead of 0. -/
theorem parseIntOption_range_error_not_zero :
    atoi "9223372036854775808" = (9223372036854775807, some .ErrRange) ∧
      parseIntOption (sampleEnv [("CLAIR_TIMEOUT", "9223372036854775808")] [])
        optionClairTimeout = 9223372036854775807 ∧
      parseIntOption (sampleEnv [("CLAIR_TIMEOUT", "-9223372036854775809")] [])
        optionClairTimeout = -9223372036854775808 ∧
      parseIntOption (sampleEnv [("CLAIR_TIMEOUT", "99999999999999999999x")] [])
        optionClairTimeout = 9223372036854775807 := by
  refine ⟨by decide, by decide, by decide, by decide⟩

/-- The part of C8 the code keeps: `parseIntOption` returns 0 for an unset setting and
whenever `strconv.Atoi` reports a syntax error (in particular for every setting of fewer
than 19 bytes that is not an integer numeral), and returns `n` for the decimal text of
every 64-bit integer `n`. -/
theorem parseIntOption_sound_part (env : Env) (key : String) :
    (env.getenv key = "" → parseIntOption env key = 0) ∧
      ((atoi (env.getenv key)).2 = some .ErrSyntax → parseIntOption env key = 0) ∧
      ((env.getenv key).utf8ByteSize < 19 → isIntegerNumeral (env.getenv key) = false →
        parseIntOption env key = 0) ∧
      (∀ n : Int, -2 ^ 63 ≤ n → n < 2 ^ 63 → env.getenv key = Itoa n →
        parseIntOption env key = n) ∧
      (env.getenv key = "5" → parseIntOption env key = 5) := by
  refine ⟨?_, ?_, ?_, ?_, ?_⟩
  · intro h
    simp [parseIntOption, h]
  · intro h
    simp only [parseIntOption]
    split
    · exact atoi_syntax_value _ h
    · rfl
  · intro hl hn
    simp only [parseIntOption]
    split
    · rw [atoi_of_not_numeral _ hl hn]
    · rfl
  · intro n h1 h2 h
    exact parseIntOption_Itoa env key n h1 h2 h
  · intro h
    simp only [parseIntOption, h]
    decide

/-- C9, as stated, fails: with the analysis timeout setting `-5`, `newConfig` succeeds
and the resolved analysis timeout is minus five minutes, which is below one minute. -/
theorem newConfig_negative_timeout :
    ∃ cfg : config,
      newConfig (sampleEnv [("CLAIR_ADDR", "http://clair:6060"), ("CLAIR_TIMEOUT", "-5")] [])
          ["klar", "img"] "" false = (.ret (some cfg, none), false) ∧
        cfg.ClairTimeout = -5 * Minute ∧ cfg.ClairTimeout < Minute := by
  refine ⟨_, rfl, ?_, ?_⟩ <;> decide

/-- C9, amended: for every environment for which `newConfig` succeeds, each of the two
timeouts follows `TimeoutRule`: a setting that is unset, `0`, or not an integer numeral
(a syntax error of `strconv.Atoi`) resolves to exactly one minute; the decimal text of
an integer `n` with `1 ≤ n ≤ 153722867` resolves to `n` minutes, at least one minute;
the decimal text of a negative integer down to `-153722867` is not coerced and resolves
to that negative number of minutes. -/
theorem newConfig_timeout_rule (env : Env) (args : List String) (url : String)
    (trace tr : Bool) (cfg : config)
    (h : newConfig env args url trace = (.ret (some cfg, none), tr)) :
    TimeoutRule (env.getenv optionClairTimeout) cfg.ClairTimeout ∧
      TimeoutRule (env.getenv optionDockerTimeout) cfg.DockerConfig.Timeout := by
  obtain ⟨h1, h2⟩ := newConfig_timeouts env args url trace tr cfg h
  rw [h1, h2]
  exact ⟨timeoutRule_resolve env _, timeoutRule_resolve env _⟩

theorem newConfig_timeout_rule_witness :
    ∃ cfg : config,
      newConfig (sampleEnv [("CLAIR_ADDR", "http://clair:6060"), ("CLAIR_TIMEOUT", "5")] [])
          ["klar", "img"] "" false = (.ret (some cfg, none), false) ∧
        (TimeoutRule
            ((sampleEnv [("CLAIR_ADDR", "http://clair:6060"), ("CLAIR_TIMEOUT", "5")] []).getenv
              optionClairTimeout) cfg.ClairTimeout ∧
          TimeoutRule
            ((sampleEnv [("CLAIR_ADDR", "http://clair:6060"), ("CLAIR_TIMEOUT", "5")] []).getenv
              optionDockerTimeout) cfg.DockerConfig.Timeout) ∧
        cfg.ClairTimeout = 5 * Minute ∧ cfg.DockerConfig.Timeout = Minute :=
  ⟨_, rfl,
    newConfig_timeout_rule
      (sampleEnv [("CLAIR_ADDR", "http://clair:6060"), ("CLAIR_TIMEOUT", "5")] [])
      ["klar", "img"] "" false false _ rfl,
    by decide, by decide⟩

end klar
